import Mathlib

/-! Overview.

Verification of the letterbox SMTP-to-Maildir delivery agent (`main.go`)
against its natural-language specification.

The development shallowly embeds the session-handling core of `main.go`:

* `Env` mirrors the `env` struct (`rcpts`, `destDirs`, `deliveries`, `tmpfile`);
* `Env.addRecipient` mirrors `env.AddRecipient` (exact whitelist match);
* `Env.beginData` mirrors `env.BeginData` (per-recipient maildir creation);
* `Env.envWrite` mirrors `env.Write` (fan-out append, `e.Close()` on failure);
* `Env.close` mirrors `env.Close` (per-delivery `Delivery.Close`);
* `onNewConn` mirrors `onNewConnection` (allowlist check);
* `goClean`, `goBase`, `goPathJoin` mirror Go's `path.Clean`, `path.Base`
  and `path.Join` as used on recipient local parts.

The external maildir store is modelled by a `Store` oracle that decides,
per directory path, whether `Dir.Create`, `Dir.NewDelivery`,
`Delivery.Write` and `Delivery.Close` succeed.  Per the maildir library
used by the code (and §4.3/§6 of the spec), `Delivery.Close` COMMITS a
delivery (moves the message from tmp/ to new/), while the separate
`Delivery.Abort` (never called by this code) discards it.
-/

/-- Error outcomes of the session hooks, abstracting the Go error values. -/
inductive Err
  /-- the error `554 5.5.1 Error: no valid recipients` -/
  | noValidRecipients
  /-- the error `450 Error: maildir unavailable` -/
  | mailboxUnavailable
  /-- the error `Recipient not in whitelist` -/
  | rcptRejected
  /-- an error returned by `Delivery.Write` in the store -/
  | writeFailed
  /-- an error returned by `Delivery.Close` in the store -/
  | closeFailed
  /-- the error `Client IP not allowed` -/
  | connRejected
  deriving DecidableEq, Repr

/-! Section: Go `path` package: `Clean`, `Base`, `Join`

`BeginData` sanitizes the recipient local part with
`path.Base(path.Clean(strings.Split(rcpt.Email(), "@")[0]))` and builds the
maildir path with `path.Join(cmdline.Maildirs, user)`.  We reimplement the
`path` functions faithfully (slash-only separators, as in Go's `path`,
not `filepath`). -/

/-- Split a character list on a separator, keeping empty fields, as Go's
`strings.Split` does for a one-character separator. -/
def splitOnChar (sep : Char) : List Char → List (List Char)
  | [] => [[]]
  | c :: cs =>
    let r := splitOnChar sep cs
    if c = sep then [] :: r
    else
      match r with
      | [] => [[c]]
      | g :: gs => (c :: g) :: gs

/-- The element-processing loop of Go's `path.Clean`: drop empty and `"."`
elements, let `".."` cancel a previous element, keep leading `".."`s of a
relative path, and drop `".."` at the root of a rooted path.  `acc` holds
the kept elements in reverse order. -/
def cleanLoop (rooted : Bool) : List String → List String → List String
  | acc, [] => acc.reverse
  | acc, p :: ps =>
    if p = "" ∨ p = "." then cleanLoop rooted acc ps
    else if p = ".." then
      match acc with
      | [] => if rooted then cleanLoop rooted [] ps else cleanLoop rooted [p] ps
      | a :: rest =>
        if a = ".." then cleanLoop rooted (p :: a :: rest) ps
        else cleanLoop rooted rest ps
    else cleanLoop rooted (p :: acc) ps

/-- Join path elements with `"/"`. -/
def joinSlash : List String → String
  | [] => ""
  | [p] => p
  | p :: ps => p ++ "/" ++ joinSlash ps

/-- Go's `path.Clean`. -/
def goClean (p : String) : String :=
  if p = "" then "."
  else
    let rooted := p.data.head? = some '/'
    let parts := cleanLoop rooted [] ((splitOnChar '/' p.data).map (fun l => String.mk l))
    let s := (if rooted then "/" else "") ++ joinSlash parts
    if s = "" then "." else s

/-- Go's `path.Base`: strip trailing slashes, then take the part after the
last slash; `""` maps to `"."` and an all-slash path to `"/"`. -/
def goBase (p : String) : String :=
  if p = "" then "."
  else
    let cs := (p.data.reverse.dropWhile (fun c => c = '/')).reverse
    if cs = [] then "/"
    else String.mk ((cs.reverse.takeWhile (fun c => c ≠ '/')).reverse)

/-- Go's `path.Join` on two elements: empty elements are skipped, the rest
are joined with `"/"` and cleaned; all-empty input yields `""`. -/
def goPathJoin (a b : String) : String :=
  if a = "" then (if b = "" then "" else goClean b)
  else if b = "" then goClean a
  else goClean (a ++ "/" ++ b)

/-- Go's `strings.Contains(s, "@")`. -/
def hasAt (s : String) : Bool := s.data.any (fun c => c = '@')

/-- Go's `strings.Split(s, "@")[0]`: everything before the first `'@'`
(the whole string when there is none). -/
def localPart (s : String) : String :=
  String.mk (s.data.takeWhile (fun c => c ≠ '@'))

/-- The recipient sanitization of `BeginData`:
`user := path.Base(path.Clean(strings.Split(rcpt.Email(), "@")[0]))`. -/
def deriveLocalName (email : String) : String :=
  goBase (goClean (localPart email))

/-! Section: The external maildir store and deliveries -/

/-- Oracle for the external maildir store: per directory path, whether
`Dir.Create` or `Dir.NewDelivery` fails, and whether `Delivery.Write` or
`Delivery.Close` fails for deliveries opened under that path. -/
structure Store where
  createFails : String → Bool
  newDeliveryFails : String → Bool
  writeFails : String → Bool
  closeFails : String → Bool

/-- A store in which every operation succeeds. -/
def Store.ok : Store :=
  { createFails := fun _ => false
    newDeliveryFails := fun _ => false
    writeFails := fun _ => false
    closeFails := fun _ => false }

/-- State of one maildir delivery handle.  `opened` is a live handle writing
to tmp/; `committed` is the result of `Delivery.Close` (the message has been
moved to new/ and is visible in the mailbox); `aborted` is the result of
`Delivery.Abort` (tmp file removed, nothing visible) — the letterbox code
never calls `Abort`. -/
inductive DStatus
  | opened
  | committed
  | aborted
  deriving DecidableEq, Repr

/-- One `maildir.Delivery`: the maildir path it delivers to, the lines
written so far, its status, and the store-determined failure behaviour of
its `Write` and `Close` operations. -/
structure Delivery where
  dir : String
  content : List (List Nat)
  status : DStatus
  failWrite : Bool
  failClose : Bool
  deriving DecidableEq, Repr

/-- A fresh delivery handle for maildir `dir`, as returned by
`Dir.NewDelivery`. -/
def mkDelivery (store : Store) (dir : String) : Delivery :=
  { dir := dir
    content := []
    status := .opened
    failWrite := store.writeFails dir
    failClose := store.closeFails dir }

/-- The store's `Delivery.Write(line)`: appends to the tmp file of an open delivery;
fails when the store fails the write or the handle is no longer open. -/
def Delivery.writeLine (line : List Nat) (d : Delivery) : Delivery × Option Err :=
  if d.status = .opened ∧ d.failWrite = false then
    ({ d with content := d.content ++ [line] }, none)
  else (d, some Err.writeFailed)

/-- The store's `Delivery.Close()`: closes the tmp file and moves the message to new/,
committing the delivery; fails when the store fails the close or the handle
is no longer open. -/
def Delivery.closeCommit (d : Delivery) : Delivery × Option Err :=
  if d.status = .opened ∧ d.failClose = false then
    ({ d with status := .committed }, none)
  else (d, some Err.closeFailed)

/-! Section: The `env` struct and its hook methods -/

/-- The `env` struct: accepted recipient addresses, created maildirs,
open delivery handles, and the (unused) `tmpfile` field.  There is no
field recording whether the DATA phase has begun. -/
structure Env where
  rcpts : List String
  destDirs : List String
  deliveries : List Delivery
  tmpfile : String
  deriving DecidableEq, Repr

/-- The fresh envelope returned by `onNewMail`: `&env{}`. -/
def Env.fresh : Env :=
  { rcpts := [], destDirs := [], deliveries := [], tmpfile := "" }

/-- The whitelist loop of `AddRecipient`: `for _, user := range cfg.Emails
{ if rcpt.Email() == user { ... } }` — true iff some entry equals the
recipient exactly. -/
def memAddr (rcpt : String) : List String → Bool
  | [] => false
  | u :: us => if rcpt = u then true else memAddr rcpt us

/-- The hook `env.AddRecipient`: append the recipient iff it matches the whitelist
exactly; otherwise reject with an error and leave the envelope unchanged. -/
def Env.addRecipient (emails : List String) (rcpt : String) (e : Env) :
    Env × Option Err :=
  if memAddr rcpt emails then
    ({ e with rcpts := e.rcpts ++ [rcpt] }, none)
  else (e, some Err.rcptRejected)

/-- The recipient loop of `BeginData`, threading the envelope through the
loop body: recipients without `'@'` are skipped; otherwise the maildir at
`path.Join(root, user)` is created (a failure returns 450 at once), the dir
recorded, a delivery opened (a failure returns 450 at once) and recorded.
After the loop, zero deliveries is the 554 error. -/
def beginDataLoop (store : Store) (root : String) :
    List String → Env → Env × Option Err
  | [], e =>
    if e.deliveries.isEmpty then (e, some Err.noValidRecipients) else (e, none)
  | r :: rest, e =>
    if hasAt r = false then beginDataLoop store root rest e
    else
      let dir := goPathJoin root (deriveLocalName r)
      if store.createFails dir then (e, some Err.mailboxUnavailable)
      else
        let e1 := { e with destDirs := e.destDirs ++ [dir] }
        if store.newDeliveryFails dir then (e1, some Err.mailboxUnavailable)
        else
          beginDataLoop store root rest
            { e1 with deliveries := e1.deliveries ++ [mkDelivery store dir] }

/-- The hook `env.BeginData`: 554 when no recipient was accepted, else run the
recipient loop rooted at `cmdline.Maildirs`. -/
def Env.beginData (store : Store) (root : String) (e : Env) : Env × Option Err :=
  if e.rcpts.isEmpty then (e, some Err.noValidRecipients)
  else beginDataLoop store root e.rcpts e

/-- The delivery loop of `env.Write`: append the line to each delivery in
order; at the first failure the remaining deliveries are left untouched and
the failure is flagged. -/
def writeAll (line : List Nat) : List Delivery → List Delivery × Bool
  | [] => ([], false)
  | d :: ds =>
    let p := d.writeLine line
    if p.2.isSome then (p.1 :: ds, true)
    else (p.1 :: (writeAll line ds).1, (writeAll line ds).2)

/-- The delivery loop of `env.Close`: `Delivery.Close` each delivery in
order, returning at the first failure and leaving the rest untouched. -/
def closeAll : List Delivery → List Delivery × Option Err
  | [] => ([], none)
  | d :: ds =>
    let p := d.closeCommit
    if p.2.isSome then (p.1 :: ds, p.2)
    else (p.1 :: (closeAll ds).1, (closeAll ds).2)

/-- The hook `env.Close`: close (commit) every delivery in order, stopping at the
first close error. -/
def Env.close (e : Env) : Env × Option Err :=
  ({ e with deliveries := (closeAll e.deliveries).1 }, (closeAll e.deliveries).2)

/-- The hook `env.Write`: append the line to every delivery in order; if any single
append fails, call `e.Close()` (ignoring its result) and return the write
error. -/
def Env.envWrite (line : List Nat) (e : Env) : Env × Option Err :=
  let p := writeAll line e.deliveries
  if p.2 then
    (({ e with deliveries := p.1 }).close.1, some Err.writeFailed)
  else ({ e with deliveries := p.1 }, none)

/-! Section: Connection admission -/

/-- An allowed network: base address and mask, as produced from a CIDR
entry by `net.ParseCIDR` (addresses modelled as 32-bit naturals). -/
structure IPNet where
  base : Nat
  mask : Nat
  deriving DecidableEq, Repr

/-- Go's `net.IPNet.Contains`: the address agrees with the base on the masked
bits. -/
def IPNet.containsIP (n : IPNet) (a : Nat) : Bool :=
  Nat.land a n.mask = Nat.land n.base n.mask

/-- The `allowedHosts` loop of `onNewConnection`: first literal entry equal
to the client address accepts. -/
def anyHostEqual : List Nat → Nat → Bool
  | [], _ => false
  | h :: hs, a => if h = a then true else anyHostEqual hs a

/-- The `allowedNetworks` loop of `onNewConnection`: first network entry
containing the client address accepts. -/
def anyNetContains : List IPNet → Nat → Bool
  | [], _ => false
  | n :: ns, a => if n.containsIP a then true else anyNetContains ns a

/-- The hook `onNewConnection` after address parsing: accept (no error) iff a
literal host entry equals the client address or a network entry contains
it; otherwise reject. -/
def onNewConn (hostsA : List Nat) (netsA : List IPNet) (a : Nat) : Option Err :=
  if anyHostEqual hostsA a then none
  else if anyNetContains netsA a then none
  else some Err.connRejected

/-! Section: Concrete test fixtures

Small concrete stores and session states used to evaluate the hook
methods on explicit inputs.  `"/md"` plays the role of
`cmdline.Maildirs`. -/

/-- A fresh envelope that has accepted the two whitelisted recipients
`alice@x` and `bob@x` (the state after two successful `AddRecipient`
calls). -/
def envAB0 : Env := { Env.fresh with rcpts := ["alice@x", "bob@x"] }

/-- A store in which `Delivery.Write` fails for deliveries under
`/md/bob` and everything else succeeds. -/
def storeBadWriteBob : Store :=
  { Store.ok with writeFails := fun p => p == "/md/bob" }

/-- The session state after a successful `BeginData` of `envAB0` against
`storeBadWriteBob`: two open deliveries, the second of which will fail
its next `Write`. -/
def envWF : Env := (Env.beginData storeBadWriteBob "/md" envAB0).1

/-- A store in which `Dir.Create` fails for `/md/bob` and everything else
succeeds. -/
def storeBadCreateBob : Store :=
  { Store.ok with createFails := fun p => p == "/md/bob" }

/-- A store in which `Delivery.Close` fails for deliveries under
`/md/alice` and everything else succeeds. -/
def storeBadCloseAlice : Store :=
  { Store.ok with closeFails := fun p => p == "/md/alice" }

/-- The session state after a successful `BeginData` of `envAB0` against
`storeBadCloseAlice`: two open deliveries, the first of which will fail
its `Close`. -/
def envCF : Env := (Env.beginData storeBadCloseAlice "/md" envAB0).1

/-- A store in which `Delivery.Close` fails for deliveries under
`/md/bob` and everything else succeeds. -/
def storeBadCloseBob : Store :=
  { Store.ok with closeFails := fun p => p == "/md/bob" }

/-- The session state after a successful `BeginData` of `envAB0` against
`storeBadCloseBob`: two open deliveries, the second of which will fail
its `Close`. -/
def envCF2 : Env := (Env.beginData storeBadCloseBob "/md" envAB0).1

/-! Section: Sanity checks of the embedding on concrete inputs -/

example : deriveLocalName "user@domain.com" = "user" := by decide

example : deriveLocalName "../../etc/passwd@x" = "passwd" := by decide

example : goClean "/a//b/../c/." = "/a/c" := by decide

example : goBase "a/b/c" = "c" := by decide

example : goPathJoin "/md" "alice" = "/md/alice" := by decide

example :
    envWF.deliveries
      = [mkDelivery storeBadWriteBob "/md/alice",
         mkDelivery storeBadWriteBob "/md/bob"] := by decide

example : (Env.beginData storeBadWriteBob "/md" envAB0).2 = none := by decide

example :
    (Env.envWrite [104, 105] envWF).2 = some Err.writeFailed := by decide

/-! Section: Helper lemmas -/

/-- The whitelist loop accepts exactly the exact string matches. -/
theorem memAddr_iff (rcpt : String) (emails : List String) :
    memAddr rcpt emails = true ↔ rcpt ∈ emails := by
  induction emails with
  | nil => simp [memAddr]
  | cons u us ih =>
    by_cases h : rcpt = u
    · subst h; simp [memAddr]
    · simp [memAddr, h, ih]

/-- The `allowedHosts` loop accepts exactly the listed addresses. -/
theorem anyHostEqual_iff (hs : List Nat) (a : Nat) :
    anyHostEqual hs a = true ↔ a ∈ hs := by
  induction hs with
  | nil => simp [anyHostEqual]
  | cons h hs ih =>
    by_cases hh : h = a
    · subst hh; simp [anyHostEqual]
    · have : ¬ a = h := fun hc => hh hc.symm
      simp [anyHostEqual, hh, ih, this]

/-- The `allowedNetworks` loop accepts exactly the addresses contained in
some listed network. -/
theorem anyNetContains_iff (ns : List IPNet) (a : Nat) :
    anyNetContains ns a = true ↔ ∃ n ∈ ns, n.containsIP a = true := by
  induction ns with
  | nil => simp [anyNetContains]
  | cons n ns ih =>
    cases hn : n.containsIP a
    · simp [anyNetContains, hn, ih]
    · simp [anyNetContains, hn]

/-- The store's `Delivery.Write` never changes the maildir a delivery targets. -/
theorem writeLine_dir (d : Delivery) (line : List Nat) :
    ((d.writeLine line).1).dir = d.dir := by
  unfold Delivery.writeLine; split <;> rfl

/-- The store's `Delivery.Write` never changes a delivery's status. -/
theorem writeLine_status (d : Delivery) (line : List Nat) :
    ((d.writeLine line).1).status = d.status := by
  unfold Delivery.writeLine; split <;> rfl

/-- The store's `Delivery.Write` never changes a delivery's close behaviour. -/
theorem writeLine_failClose (d : Delivery) (line : List Nat) :
    ((d.writeLine line).1).failClose = d.failClose := by
  unfold Delivery.writeLine; split <;> rfl

/-- The store's `Delivery.Close` never changes the maildir a delivery targets. -/
theorem closeCommit_dir (d : Delivery) :
    (d.closeCommit.1).dir = d.dir := by
  unfold Delivery.closeCommit; split <;> rfl

/-- The write loop never changes which maildirs the deliveries target. -/
theorem writeAll_map_dir (line : List Nat) :
    ∀ ds : List Delivery,
      ((writeAll line ds).1).map Delivery.dir = ds.map Delivery.dir := by
  intro ds
  induction ds with
  | nil => rfl
  | cons d ds ih =>
    simp only [writeAll]
    cases h : ((d.writeLine line).2).isSome <;>
      simp [h, ih, writeLine_dir]

/-- The close loop never changes which maildirs the deliveries target. -/
theorem closeAll_map_dir :
    ∀ ds : List Delivery,
      ((closeAll ds).1).map Delivery.dir = ds.map Delivery.dir := by
  intro ds
  induction ds with
  | nil => rfl
  | cons d ds ih =>
    simp only [closeAll]
    cases h : (d.closeCommit.2).isSome <;>
      simp [h, ih, closeCommit_dir]

/-- The hook `env.Write` never changes which maildirs the session delivers to. -/
theorem envWrite_map_dir (line : List Nat) (e : Env) :
    ((Env.envWrite line e).1).deliveries.map Delivery.dir
      = e.deliveries.map Delivery.dir := by
  unfold Env.envWrite
  cases h : (writeAll line e.deliveries).2 <;>
    simp [h, Env.close, closeAll_map_dir, writeAll_map_dir]

/-! Section: C7: connection admission -/

/-- C7: connection admission accepts a client address exactly when it
equals some configured literal host entry or falls within some configured
network range entry; with both lists empty every connection is rejected. -/
theorem C7_connection_admission (hostsA : List Nat) (nets : List IPNet) (a : Nat) :
    (onNewConn hostsA nets a = none
      ↔ a ∈ hostsA ∨ ∃ n ∈ nets, n.containsIP a = true)
    ∧ onNewConn [] [] a = some Err.connRejected := by
  constructor
  · rw [← anyHostEqual_iff, ← anyNetContains_iff]
    unfold onNewConn
    cases h1 : anyHostEqual hostsA a <;>
      cases h2 : anyNetContains nets a <;> simp [h1, h2]
  · rfl

/-- C7 witness: a concrete rejected and a concrete accepted address. -/
theorem C7_connection_admission_witness :
    onNewConn [] [] 167772161 = some Err.connRejected
    ∧ onNewConn [167772161] [] 167772161 = none := by
  refine ⟨(C7_connection_admission [] [] 167772161).2, ?_⟩
  exact (C7_connection_admission [167772161] [] 167772161).1.mpr
    (Or.inl (by simp))

/-! Section: C8: recipient whitelisting -/

/-- C8: `AddRecipient` accepts a recipient exactly when it is an exact,
case-sensitive match of some whitelist entry; an accepted recipient is
appended to the recipient list (deliveries untouched), and a rejected one
leaves the envelope completely unchanged, so the session remains usable. -/
theorem C8_addRecipient_whitelist (emails : List String) (rcpt : String) (e : Env) :
    ((Env.addRecipient emails rcpt e).2 = none ↔ rcpt ∈ emails)
    ∧ (rcpt ∈ emails →
        (Env.addRecipient emails rcpt e).1.rcpts = e.rcpts ++ [rcpt]
        ∧ (Env.addRecipient emails rcpt e).1.destDirs = e.destDirs
        ∧ (Env.addRecipient emails rcpt e).1.deliveries = e.deliveries)
    ∧ (rcpt ∉ emails →
        Env.addRecipient emails rcpt e = (e, some Err.rcptRejected)) := by
  have hm := memAddr_iff rcpt emails
  cases h : memAddr rcpt emails
  · rw [h] at hm
    simp only [Bool.false_eq_true, false_iff] at hm
    simp [Env.addRecipient, h, hm]
  · rw [h] at hm
    simp only [true_iff] at hm
    simp [Env.addRecipient, h, hm]

/-- C8 witness: `root@frobozz.org` is accepted against the configured
whitelist; `Root@frobozz.org` (different case) is rejected with the
envelope unchanged. -/
theorem C8_addRecipient_whitelist_witness :
    (Env.addRecipient ["root@frobozz.org"] "root@frobozz.org" Env.fresh).2 = none
    ∧ Env.addRecipient ["root@frobozz.org"] "Root@frobozz.org" Env.fresh
        = (Env.fresh, some Err.rcptRejected) := by
  constructor
  · exact (C8_addRecipient_whitelist ["root@frobozz.org"] "root@frobozz.org"
      Env.fresh).1.mpr (by simp)
  · exact (C8_addRecipient_whitelist ["root@frobozz.org"] "Root@frobozz.org"
      Env.fresh).2.2 (by simp)

/-! Section: C9: Write on a session with no deliveries -/

/-- C9: on any envelope whose delivery list is empty — in particular a
fresh envelope on which `BeginData` was never called — `Write` returns
success for every input line and changes nothing. -/
theorem C9_write_no_deliveries (e : Env) (line : List Nat)
    (h : e.deliveries = []) :
    Env.envWrite line e = (e, none) := by
  obtain ⟨r, dd, ds, t⟩ := e
  simp only at h
  subst h
  rfl

/-- C9 witness: writing to the fresh envelope returned by `onNewMail`
succeeds and leaves it unchanged. -/
theorem C9_write_no_deliveries_witness :
    Env.envWrite [68, 65, 84, 65] Env.fresh = (Env.fresh, none) :=
  C9_write_no_deliveries Env.fresh [68, 65, 84, 65] rfl

/-! Section: C10: AddRecipient after BeginData -/

/-- C10: the envelope records no DATA-phase flag, and `AddRecipient`
consults none: on any envelope — including one on which `BeginData` has
already succeeded and opened deliveries — a whitelisted recipient is
accepted and appended to the recipient list, while the destination dirs
and open deliveries are untouched; any subsequent `Write` still targets
only the pre-existing deliveries, so the late recipient never receives
the message. -/
theorem C10_addRecipient_after_beginData (emails : List String) (rcpt : String)
    (e : Env) (h : rcpt ∈ emails) :
    (Env.addRecipient emails rcpt e).2 = none
    ∧ (Env.addRecipient emails rcpt e).1.rcpts = e.rcpts ++ [rcpt]
    ∧ (Env.addRecipient emails rcpt e).1.destDirs = e.destDirs
    ∧ (Env.addRecipient emails rcpt e).1.deliveries = e.deliveries
    ∧ ∀ line,
        (((Env.addRecipient emails rcpt e).1.envWrite line).1).deliveries.map
            Delivery.dir
          = e.deliveries.map Delivery.dir := by
  have hm : memAddr rcpt emails = true := (memAddr_iff rcpt emails).mpr h
  simp [Env.addRecipient, hm, envWrite_map_dir]

/-- C10 witness: after `BeginData` has opened the two deliveries of
`envWF`, a late whitelisted `carol@x` is still accepted, the deliveries
are unchanged, and a subsequent `Write` delivers only to the two original
maildirs. -/
theorem C10_addRecipient_after_beginData_witness :
    (Env.addRecipient ["carol@x"] "carol@x" envWF).2 = none
    ∧ (Env.addRecipient ["carol@x"] "carol@x" envWF).1.deliveries
        = envWF.deliveries
    ∧ (((Env.addRecipient ["carol@x"] "carol@x" envWF).1.envWrite [13]).1).deliveries.map
          Delivery.dir
        = envWF.deliveries.map Delivery.dir := by
  have h := C10_addRecipient_after_beginData ["carol@x"] "carol@x" envWF (by simp)
  exact ⟨h.1, h.2.2.2.1, h.2.2.2.2 [13]⟩

/-! Section: C1: what Write does on an append failure -/

/-- The write loop preserves each delivery's status and close behaviour. -/
theorem writeAll_mem_status (line : List Nat) :
    ∀ ds : List Delivery,
      (∀ d ∈ ds, d.status = DStatus.opened ∧ d.failClose = false) →
      ∀ d ∈ (writeAll line ds).1,
        d.status = DStatus.opened ∧ d.failClose = false := by
  intro ds
  induction ds with
  | nil => intro _ d hd; simp [writeAll] at hd
  | cons d0 ds ih =>
    intro h d hd
    have h0 := h d0 (List.mem_cons_self d0 ds)
    have htl := fun x hx => h x (List.mem_cons_of_mem d0 hx)
    simp only [writeAll] at hd
    cases hp : ((d0.writeLine line).2).isSome <;> simp only [hp] at hd
    · simp only [Bool.false_eq_true, if_false, List.mem_cons] at hd
      rcases hd with hd | hd
      · subst hd
        exact ⟨(writeLine_status d0 line).trans h0.1,
               (writeLine_failClose d0 line).trans h0.2⟩
      · exact ih htl d hd
    · simp only [if_true, List.mem_cons] at hd
      rcases hd with hd | hd
      · subst hd
        exact ⟨(writeLine_status d0 line).trans h0.1,
               (writeLine_failClose d0 line).trans h0.2⟩
      · exact htl d hd

/-- When every delivery is open and none fails its close, the close loop
commits every delivery and reports no error. -/
theorem closeAll_all_ok :
    ∀ ds : List Delivery,
      (∀ d ∈ ds, d.status = DStatus.opened ∧ d.failClose = false) →
      closeAll ds
        = (ds.map (fun d => { d with status := DStatus.committed }), none) := by
  intro ds
  induction ds with
  | nil => intro _; rfl
  | cons d ds ih =>
    intro h
    have hd := h d (List.mem_cons_self d ds)
    have hcc : d.closeCommit = ({ d with status := DStatus.committed }, none) := by
      unfold Delivery.closeCommit
      rw [if_pos hd]
    simp [closeAll, hcc, ih (fun x hx => h x (List.mem_cons_of_mem d hx))]

/-- C1 counterexample: in the reachable session `envWF` (two open
deliveries, `bob`'s failing its next append), a failing `Write` does NOT
abort the destinations: both deliveries end up COMMITTED — `alice`'s
with the partial line visibly delivered to her mailbox and `bob`'s as an
empty committed message — and none is aborted or discarded. -/
theorem C1_write_failure_counterexample :
    (Env.envWrite [72] envWF).2 = some Err.writeFailed
    ∧ (Env.envWrite [72] envWF).1.deliveries.map Delivery.status
        = [DStatus.committed, DStatus.committed]
    ∧ (Env.envWrite [72] envWF).1.deliveries.map Delivery.content
        = [[[72]], []]
    ∧ ¬ DStatus.aborted ∈ (Env.envWrite [72] envWF).1.deliveries.map
          Delivery.status := by decide

/-- C1 amended: if any single destination's append fails during `Write`,
then before `Write` returns its error every open destination of the
session is closed in COMMIT mode (so partially written content is
persisted and visible, not discarded); no destination is ever aborted
(assuming, as in the counterexample, that the closes themselves
succeed). -/
theorem C1_write_failure_commits_all (e : Env) (line : List Nat)
    (hop : ∀ d ∈ e.deliveries, d.status = DStatus.opened ∧ d.failClose = false)
    (hfail : ((Env.envWrite line e).2).isSome = true) :
    ((Env.envWrite line e).1.deliveries.all
        (fun d => d.status == DStatus.committed)) = true := by
  have h1 := writeAll_mem_status line e.deliveries hop
  have h2 := closeAll_all_ok _ h1
  cases hw : (writeAll line e.deliveries).2
  · exfalso
    simp [Env.envWrite, hw] at hfail
  · simp only [Env.envWrite, hw, if_true, Env.close, h2]
    simp only [List.all_eq_true, List.mem_map]
    rintro x ⟨d, _, rfl⟩
    rfl

/-- C1 witness: instantiating the amended statement on `envWF`. -/
theorem C1_write_failure_commits_all_witness :
    ((Env.envWrite [72] envWF).1.deliveries.all
        (fun d => d.status == DStatus.committed)) = true :=
  C1_write_failure_commits_all envWF [72] (by decide) (by decide)

/-! Section: C5: what Close does on a commit failure -/

/-- The close loop commits the open, close-succeeding deliveries before
the first failing one, returns that failure, and leaves the failing
delivery and everything after it untouched (their closes are never
attempted). -/
theorem closeAll_stops_at_failure :
    ∀ (ds1 : List Delivery) (d : Delivery) (ds2 : List Delivery),
      (∀ x ∈ ds1, x.status = DStatus.opened ∧ x.failClose = false) →
      d.status = DStatus.opened → d.failClose = true →
      closeAll (ds1 ++ d :: ds2)
        = (ds1.map (fun x => { x with status := DStatus.committed })
            ++ d :: ds2,
           some Err.closeFailed) := by
  intro ds1
  induction ds1 with
  | nil =>
    intro d ds2 _ hd hdc
    have hcc : d.closeCommit = (d, some Err.closeFailed) := by
      unfold Delivery.closeCommit
      rw [if_neg]
      rintro ⟨-, h2⟩
      rw [hdc] at h2
      cases h2
    simp [closeAll, hcc]
  | cons x xs ih =>
    intro d ds2 h hd hdc
    have hx := h x (List.mem_cons_self x xs)
    have hcc : x.closeCommit = ({ x with status := DStatus.committed }, none) := by
      unfold Delivery.closeCommit
      rw [if_pos hx]
    simp [closeAll, hcc,
      ih d ds2 (fun y hy => h y (List.mem_cons_of_mem x hy)) hd hdc]

/-- C5 counterexample: in the reachable session `envCF` (two open
deliveries, the FIRST of which fails its `Close`), `env.Close` returns
the first commit failure and never attempts the second destination's
commit: `bob`'s delivery is still open afterwards, not committed. -/
theorem C5_close_failure_counterexample :
    (Env.close envCF).2 = some Err.closeFailed
    ∧ (Env.close envCF).1.deliveries.map Delivery.status
        = [DStatus.opened, DStatus.opened] := by decide

/-- C5 amended: `Close` closes the open destinations in commit mode in
recipient order only up to the first commit failure; it returns that
failure immediately, and the commits of the failing destination and of
every destination after it are not attempted (they stay open). -/
theorem C5_close_stops_at_first_failure (e : Env) (ds1 : List Delivery)
    (d : Delivery) (ds2 : List Delivery)
    (hsplit : e.deliveries = ds1 ++ d :: ds2)
    (hok : ∀ x ∈ ds1, x.status = DStatus.opened ∧ x.failClose = false)
    (hd : d.status = DStatus.opened) (hdc : d.failClose = true) :
    (Env.close e).2 = some Err.closeFailed
    ∧ (Env.close e).1.deliveries
        = ds1.map (fun x => { x with status := DStatus.committed })
            ++ d :: ds2 := by
  unfold Env.close
  rw [hsplit, closeAll_stops_at_failure ds1 d ds2 hok hd hdc]
  exact ⟨rfl, rfl⟩

/-- C5 witness: in `envCF2` (two open deliveries, the SECOND failing its
close), `Close` commits `alice`'s delivery, fails on `bob`'s and leaves
it open. -/
theorem C5_close_stops_at_first_failure_witness :
    (Env.close envCF2).2 = some Err.closeFailed
    ∧ (Env.close envCF2).1.deliveries
        = [mkDelivery storeBadCloseBob "/md/alice"].map
              (fun x => { x with status := DStatus.committed })
            ++ mkDelivery storeBadCloseBob "/md/bob" :: [] :=
  C5_close_stops_at_first_failure envCF2
    [mkDelivery storeBadCloseBob "/md/alice"]
    (mkDelivery storeBadCloseBob "/md/bob") []
    (by decide) (by decide) (by decide) (by decide)

/-! Section: C3: open handles when BeginData fails -/

/-- C3 counterexample: with `alice`'s maildir opening fine and `bob`'s
`Create` failing, `BeginData` surfaces its session-fatal error while
`alice`'s already-opened delivery is still OPEN — neither closed nor
aborted — so a dangling open write handle remains. -/
theorem C3_beginData_dangling_counterexample :
    (Env.beginData storeBadCreateBob "/md" envAB0).2
        = some Err.mailboxUnavailable
    ∧ (Env.beginData storeBadCreateBob "/md" envAB0).1.deliveries.map
          Delivery.status
        = [DStatus.opened] := by decide

/-- C3 amended: only the `Write` failure path closes the open
destinations before surfacing its error; a failure in `BeginData`
surfaces immediately and leaves every destination already opened for an
earlier recipient open.  Concretely: for any two-recipient session where
the first recipient's maildir opens and the second's `Create` fails,
`BeginData` returns the 450 error with the first delivery still open. -/
theorem C3_beginData_leaves_handles_open (store : Store) (root r1 r2 : String)
    (e : Env)
    (hdel : e.deliveries = []) (hr : e.rcpts = [r1, r2])
    (h1 : hasAt r1 = true) (h2 : hasAt r2 = true)
    (hc1 : store.createFails (goPathJoin root (deriveLocalName r1)) = false)
    (hn1 : store.newDeliveryFails (goPathJoin root (deriveLocalName r1)) = false)
    (hc2 : store.createFails (goPathJoin root (deriveLocalName r2)) = true) :
    (Env.beginData store root e).2 = some Err.mailboxUnavailable
    ∧ (Env.beginData store root e).1.deliveries
        = [mkDelivery store (goPathJoin root (deriveLocalName r1))]
    ∧ (mkDelivery store (goPathJoin root (deriveLocalName r1))).status
        = DStatus.opened := by
  unfold Env.beginData
  rw [hr]
  simp [beginDataLoop, h1, h2, hc1, hn1, hc2, hdel, mkDelivery]

/-- C3 witness: instantiating the amended statement on the concrete
store `storeBadCreateBob` and session `envAB0`. -/
theorem C3_beginData_leaves_handles_open_witness :
    (Env.beginData storeBadCreateBob "/md" envAB0).2
        = some Err.mailboxUnavailable
    ∧ (Env.beginData storeBadCreateBob "/md" envAB0).1.deliveries
        = [mkDelivery storeBadCreateBob
            (goPathJoin "/md" (deriveLocalName "alice@x"))]
    ∧ (mkDelivery storeBadCreateBob
          (goPathJoin "/md" (deriveLocalName "alice@x"))).status
        = DStatus.opened :=
  C3_beginData_leaves_handles_open storeBadCreateBob "/md" "alice@x" "bob@x"
    envAB0 rfl rfl (by decide) (by decide) (by decide) (by decide) (by decide)

/-! Section: C4: BeginData does not skip a recipient whose open fails -/

/-- C4 counterexample: with one destination already successfully opened
(`alice`), the failure to create `bob`'s maildir makes `BeginData` fail
the whole session — it does not skip `bob` and proceed, and it fails
even though the number of successfully opened destinations is 1, not 0. -/
theorem C4_beginData_no_skip_counterexample :
    ((Env.beginData storeBadCreateBob "/md" envAB0).2).isSome = true
    ∧ (Env.beginData storeBadCreateBob "/md" envAB0).1.deliveries.length
        = 1 := by decide

/-- C4 amended: in the recipient loop of `BeginData`, only a recipient
whose address lacks `'@'` is skipped; if creating the maildir for a
recipient fails, or opening its delivery fails, `BeginData` returns the
450 `MailboxUnavailable` error immediately, abandoning all remaining
recipients (regardless of how many destinations had already opened). -/
theorem C4_beginData_open_failure_is_fatal (store : Store) (root r : String)
    (rest : List String) (e : Env) :
    (hasAt r = false →
      beginDataLoop store root (r :: rest) e = beginDataLoop store root rest e)
    ∧ (hasAt r = true →
       store.createFails (goPathJoin root (deriveLocalName r)) = true →
        beginDataLoop store root (r :: rest) e
          = (e, some Err.mailboxUnavailable))
    ∧ (hasAt r = true →
       store.createFails (goPathJoin root (deriveLocalName r)) = false →
       store.newDeliveryFails (goPathJoin root (deriveLocalName r)) = true →
        beginDataLoop store root (r :: rest) e
          = ({ e with destDirs :=
                e.destDirs ++ [goPathJoin root (deriveLocalName r)] },
             some Err.mailboxUnavailable)) := by
  refine ⟨fun h => ?_, fun h hc => ?_, fun h hc hn => ?_⟩
  · simp [beginDataLoop, h]
  · simp [beginDataLoop, h, hc]
  · simp [beginDataLoop, h, hc, hn]

/-- C4 witness: the two failure modes on concrete inputs — a create
failure for `bob@x` aborts the loop at once, and the no-`'@'` recipient
`postmaster` is skipped. -/
theorem C4_beginData_open_failure_is_fatal_witness :
    beginDataLoop storeBadCreateBob "/md" ["bob@x", "carol@x"] envAB0
        = (envAB0, some Err.mailboxUnavailable)
    ∧ beginDataLoop storeBadCreateBob "/md" ["postmaster"] envAB0
        = beginDataLoop storeBadCreateBob "/md" [] envAB0 := by
  constructor
  · exact (C4_beginData_open_failure_is_fatal storeBadCreateBob "/md" "bob@x"
      ["carol@x"] envAB0).2.1 (by decide) (by decide)
  · exact (C4_beginData_open_failure_is_fatal storeBadCreateBob "/md"
      "postmaster" [] envAB0).1 (by decide)

/-! Section: C6: recipient / delivery list alignment -/

/-- The recipient loop of `BeginData` never modifies the recipient
list. -/
theorem beginDataLoop_rcpts (store : Store) (root : String) :
    ∀ (rcpts : List String) (e : Env),
      ((beginDataLoop store root rcpts e).1).rcpts = e.rcpts := by
  intro rcpts
  induction rcpts with
  | nil =>
    intro e
    unfold beginDataLoop
    split <;> rfl
  | cons r rest ih =>
    intro e
    unfold beginDataLoop
    cases h : hasAt r
    · simp only [h]
      simp [ih]
    · simp only [h]
      cases hc : store.createFails (goPathJoin root (deriveLocalName r))
      · cases hn : store.newDeliveryFails (goPathJoin root (deriveLocalName r))
        · simp [hc, hn, ih]
        · simp [hc, hn]
      · simp [hc]

/-- On a run in which every remaining recipient contains `'@'` and no
error is returned, the recipient loop appends exactly one fresh delivery
per recipient, in recipient order. -/
theorem beginDataLoop_success_deliveries (store : Store) (root : String) :
    ∀ (rcpts : List String) (e : Env),
      (∀ r ∈ rcpts, hasAt r = true) →
      (beginDataLoop store root rcpts e).2 = none →
      ((beginDataLoop store root rcpts e).1).deliveries
        = e.deliveries
          ++ rcpts.map
              (fun r => mkDelivery store (goPathJoin root (deriveLocalName r))) := by
  intro rcpts
  induction rcpts with
  | nil =>
    intro e _ _
    unfold beginDataLoop
    split <;> simp
  | cons r rest ih =>
    intro e hall hs
    have hr : hasAt r = true := hall r (List.mem_cons_self r rest)
    unfold beginDataLoop at hs ⊢
    rw [hr] at hs ⊢
    simp only [Bool.true_eq_false, if_false] at hs ⊢
    cases hc : store.createFails (goPathJoin root (deriveLocalName r))
    · rw [hc] at hs
      simp only [Bool.false_eq_true, if_false] at hs ⊢
      cases hn : store.newDeliveryFails (goPathJoin root (deriveLocalName r))
      · rw [hn] at hs
        simp only [Bool.false_eq_true, if_false] at hs ⊢
        rw [ih _ (fun x hx => hall x (List.mem_cons_of_mem r hx)) hs]
        simp
      · rw [hn] at hs
        simp at hs
    · rw [hc] at hs
      simp at hs

/-- C6 counterexample: after the one-operation sequence
`AddRecipient("alice@x")` on a fresh session, the recipient list has one
entry but the write-destination list is empty — the two lists are not
the same length. -/
theorem C6_alignment_counterexample :
    (Env.addRecipient ["alice@x"] "alice@x" Env.fresh).1.rcpts.length = 1
    ∧ (Env.addRecipient ["alice@x"] "alice@x" Env.fresh).1.deliveries.length
        = 0 := by decide

/-- C6 amended: the recipient and write-destination lists agree in
length and index-by-index correspondence only immediately after a
SUCCESSFUL `BeginData` on a session with no prior deliveries in which no
recipient was skipped (every accepted recipient contains `'@'`): then
the i-th delivery is the fresh delivery for the maildir derived from the
i-th recipient.  After `AddRecipient` alone, or when a recipient is
skipped, the lists differ. -/
theorem C6_alignment_after_beginData (store : Store) (root : String) (e : Env)
    (hdel : e.deliveries = [])
    (hall : ∀ r ∈ e.rcpts, hasAt r = true)
    (hs : (Env.beginData store root e).2 = none) :
    ((Env.beginData store root e).1).deliveries
      = ((Env.beginData store root e).1).rcpts.map
          (fun r => mkDelivery store (goPathJoin root (deriveLocalName r))) := by
  unfold Env.beginData at hs ⊢
  cases h0 : e.rcpts.isEmpty
  · rw [h0] at hs
    simp only [Bool.false_eq_true, if_false] at hs ⊢
    rw [beginDataLoop_rcpts store root e.rcpts e,
      beginDataLoop_success_deliveries store root e.rcpts e hall hs, hdel]
    rfl
  · rw [h0] at hs
    simp at hs

/-- C6 witness: a successful `BeginData` for `alice@x` and `bob@x`
against the all-succeeding store aligns the two lists index by index. -/
theorem C6_alignment_after_beginData_witness :
    ((Env.beginData Store.ok "/md" envAB0).1).deliveries
      = ((Env.beginData Store.ok "/md" envAB0).1).rcpts.map
          (fun r => mkDelivery Store.ok (goPathJoin "/md" (deriveLocalName r))) :=
  C6_alignment_after_beginData Store.ok "/md" envAB0 rfl (by decide) (by decide)

/-! Section: C2: local-name derivation and path escape -/

/-- C2: the sanitizer `path.Base(path.Clean(localPart))` fails on the
local part `".."`: the derived local name IS the parent-directory
reference `".."`, and joining it under the maildir root
`/var/spool/maildirs` yields `/var/spool` — outside the mailbox root.
(The empty local part similarly yields `"."`.)  This exhibits the input
on which the code violates the security invariant it was written to
enforce ("Eliminate anything that looks like a path"). -/
theorem C2_dotdot_escapes_root :
    deriveLocalName "..@attacker.example" = ".."
    ∧ goPathJoin "/var/spool/maildirs" (deriveLocalName "..@attacker.example")
        = "/var/spool"
    ∧ deriveLocalName "@attacker.example" = "." := by decide
